import Mathlib

/-!
Verification development for the Audio_Processing batch-transcription tool.
The Python sources `key_manager.py` and `批量处理.py` are shallowly embedded:
pure control flow becomes Lean functions, HTTP traffic is abstracted as a
function from attempt number to the outcome the network would deliver, and
the shared `queue.Queue` of API keys is a FIFO list (front at the head).
-/

/- ===== key_manager.py ===== -/

/-- Environment variables, as (name, value) pairs. -/
def EnvList := List (String × String)

/-- Python's `str.startswith`, computed on the character lists. -/
def strStartsWith (s pre : String) : Bool := pre.data.isPrefixOf s.data

/-- `_load_keys_from_env`: the values of all environment variables whose
name starts with the prefix `"API_KEY_"`. -/
def load_keys_from_env (env : List (String × String)) : List String :=
  (env.filter (fun p => strStartsWith p.1 "API_KEY_")).map Prod.snd

/-- Result of constructing the `ApiKeyManager` singleton: either the process
exits fatally (`sys.exit 1`) or a key pool (FIFO queue contents) is built. -/
inductive InitResult
  | fatalExit (code : Nat)
  | pool (keys : List String)
deriving DecidableEq

/-- `ApiKeyManager.__init__` / `_load_keys_from_env`: exits with code 1 when
no `API_KEY_`-prefixed variable exists, otherwise fills the key queue. -/
def initApiKeyManager (env : List (String × String)) : InitResult :=
  let keys := load_keys_from_env env
  if keys.isEmpty then .fatalExit 1 else .pool keys

/-- The whole run: `api_manager = ApiKeyManager()` executes at module import,
before any job is processed; on fatal init no job is ever attempted. The
job list is returned untouched for a successful init (jobs would then run). -/
def runBatchStartup (env : List (String × String)) (jobs : List String) :
    Except Nat (List String) :=
  match initApiKeyManager env with
  | .fatalExit c => .error c
  | .pool _ => .ok jobs

/-- How the body of a `get_key_for_session` context behaves: returns
normally, returns an error value, or raises an exception. The Python
`finally` block runs identically in all three cases. -/
inductive BodyOutcome
  | ok
  | err
  | exc
deriving DecidableEq

/-- `ApiKeyManager.get_key_for_session`, as its effect on the key queue.
Input: the queue (front first). Output: (queue after the session,
number of keys taken from the queue, number of keys put back).
An empty queue models `queue.get` timing out (`queue.Empty` raised before
`yield`; `api_key` is still `None`, so the `finally` puts nothing back).
Otherwise the front key is taken and the `finally` block runs
`if api_key: self.key_queue.put(api_key)` — Python string truthiness, so
an empty-string key is NOT put back. -/
def get_key_for_session (q : List String) (body : BodyOutcome) :
    List String × Nat × Nat :=
  match q, body with
  | [], _ => ([], 0, 0)
  | k :: rest, _ => (if k ≠ "" then rest ++ [k] else rest, 1,
                     if k ≠ "" then 1 else 0)

/-- What the network delivers for one call of `requests.request`: either a
response with a status code and body text, or a `RequestException` raised
at transport level. -/
inductive AttemptOutcome
  | response (status : Nat) (body : String)
  | netError (msg : String)
deriving DecidableEq

/-- The exception object recorded in `last_exception` by one failed attempt
of `execute_request`. -/
inductive ReqError
  | transient (status : Nat) (body : String)
  | httpError (status : Nat) (body : String)
  | network (msg : String)
deriving DecidableEq

/-- Final outcome of `execute_request`: a successful response, or the
`Exception` raised after the attempt loop ends without a success,
wrapping `last_exception` (initially `None`). -/
inductive ExecOutcome
  | success (status : Nat) (body : String)
  | retriesExhausted (last : Option ReqError)
deriving DecidableEq

/-- Observable trace of one `execute_request` run: how many HTTP calls were
made, the `time.sleep` durations in order, and the final outcome. -/
structure ExecTrace where
  numCalls : Nat
  sleeps : List Nat
  outcome : ExecOutcome
deriving DecidableEq

/-- `requests.Response.ok`: true when `raise_for_status` would not raise,
i.e. the status code is below 400. -/
def responseOk (s : Nat) : Bool := s < 400

/-- The statuses `execute_request` lists as temporary (429, 500, 503). -/
def transientStatus (s : Nat) : Bool := s = 429 || s = 500 || s = 503

/-- The statuses `execute_request` lists as permanent (400, 403, 404). -/
def fatalStatus (s : Nat) : Bool := s = 400 || s = 403 || s = 404

/-- The attempt loop of `execute_request` (`for attempt in range(max_attempts)`).
`fuel` is the number of remaining iterations, `attempt` the 0-based index,
`last` the current `last_exception`. A non-ok status outside {429,500,503}
reaches `response.raise_for_status()`; the raised `HTTPError` is a subclass
of `requests.exceptions.RequestException`, so the surrounding
`except requests.exceptions.RequestException` handler catches it, records it,
sleeps `2 * (attempt + 1)` and continues the loop — the same path a listed
transient status or a network error takes. -/
def execGo (server : Nat → AttemptOutcome) :
    Nat → Nat → Option ReqError → ExecTrace
  | 0, _, last => { numCalls := 0, sleeps := [], outcome := .retriesExhausted last }
  | fuel + 1, attempt, _ =>
    match server attempt with
    | .response s body =>
      if responseOk s then
        { numCalls := 1, sleeps := [], outcome := .success s body }
      else
        let e := if transientStatus s then ReqError.transient s body
                 else ReqError.httpError s body
        let rest := execGo server fuel (attempt + 1) (some e)
        { numCalls := rest.numCalls + 1,
          sleeps := 2 * (attempt + 1) :: rest.sleeps,
          outcome := rest.outcome }
    | .netError m =>
        let rest := execGo server fuel (attempt + 1) (some (.network m))
        { numCalls := rest.numCalls + 1,
          sleeps := 2 * (attempt + 1) :: rest.sleeps,
          outcome := rest.outcome }

/-- `max_attempts = 3` in `execute_request`. -/
def max_attempts : Nat := 3

/-- `ApiKeyManager.execute_request` on a given sequence of network outcomes
(the k-th call receives `server k`). -/
def execute_request (server : Nat → AttemptOutcome) : ExecTrace :=
  execGo server max_attempts 0 none

/-- An attempt outcome the spec classifies as transient: status 429/500/503,
or a network-level failure. -/
def isTransientOutcome : AttemptOutcome → Bool
  | .response s _ => transientStatus s
  | .netError _ => true

/-- The `last_exception` value a transient attempt outcome leaves behind. -/
def recordedError : AttemptOutcome → ReqError
  | .response s body => .transient s body
  | .netError m => .network m

/- ===== 批量处理.py ===== -/

/-- The key-queue discipline shared by `upload_file`,
`wait_for_file_processing` and `transcribe_audio` in `批量处理.py`: each
method does `api_key = api_key_queue.get()` at its start and
`api_key_queue.put(api_key)` in its `finally` block. On a FIFO queue this
takes the front key and, when the step ends, appends that key at the back.
Returns the key the step used and the queue state after the step. -/
def stepKeyUse (q : List String) : Option (String × List String) :=
  match q with
  | [] => none
  | k :: rest => some (k, rest ++ [k])

/-- The credentials observed by the three steps of one job run by
`process_single_file` (upload, then poll, then generate), together with the
queue left behind, when the job is the only user of the queue. -/
def jobStepKeys (q : List String) :
    Option ((String × String × String) × List String) := do
  let (ku, q1) ← stepKeyUse q
  let (kp, q2) ← stepKeyUse q1
  let (kg, q3) ← stepKeyUse q2
  pure ((ku, kp, kg), q3)

/-- One response of the status-check `requests.get` in
`wait_for_file_processing`: status 200 carrying a `state` string
(`'UNKNOWN'` when the field is missing), or a non-200 status. -/
inductive PollResponse
  | ok (state : String)
  | err (status : Nat)
deriving DecidableEq

/-- Outcome of `wait_for_file_processing`: `return True`, the
`"文件处理失败"` exception, or the `"文件处理超时"` exception. -/
inductive WaitResult
  | success
  | processingFailed
  | timeout
deriving DecidableEq

/-- The `while time.time() - start_time < max_wait` loop of
`wait_for_file_processing` with `max_wait = 300`: poll `n` happens at
elapsed time `10 * n` (each non-terminal check is followed by
`time.sleep(10)`; the network call itself is modelled as instantaneous).
`ACTIVE` returns success, `FAILED` raises, anything else — including a
non-200 status-check response — sleeps 10s and re-enters the loop; once
the elapsed time reaches 300s the loop exits and the timeout is raised. -/
def waitGo (responses : Nat → PollResponse) (n elapsed : Nat) : WaitResult :=
  if _h : elapsed < 300 then
    match responses n with
    | .ok st =>
      if st = "ACTIVE" then .success
      else if st = "FAILED" then .processingFailed
      else waitGo responses (n + 1) (elapsed + 10)
    | .err _ => waitGo responses (n + 1) (elapsed + 10)
  else .timeout
termination_by 300 - elapsed
decreasing_by omega

/-- `HTTPGeminiClient.wait_for_file_processing` on a given sequence of
status-check responses. -/
def wait_for_file_processing (responses : Nat → PollResponse) : WaitResult :=
  waitGo responses 0 0

/-- A status-check response that terminates neither branch of the poll loop:
a non-200 response, or a 200 response whose state is neither `ACTIVE` nor
`FAILED`. -/
def nondecisive : PollResponse → Bool
  | .ok st => !(decide (st = "ACTIVE")) && !(decide (st = "FAILED"))
  | .err _ => true

/-- Poll `m` is the first decisive status check and delivers `target`:
it happens within the 300s ceiling (polls run at 10s intervals, so poll
`m` is at elapsed time `10 * m`, and only polls `m < 30` start inside the
ceiling), and every earlier poll from `n` on was nondecisive — a non-200
response or a non-terminal state — and hence retried. -/
def firstDecisive (responses : Nat → PollResponse) (n m : Nat)
    (target : PollResponse) : Prop :=
  n ≤ m ∧ m < 30 ∧ responses m = target ∧
    ∀ j, n ≤ j → j < m → nondecisive (responses j) = true

/-- Every poll from `n` that starts inside the 300s ceiling is nondecisive
(retried without counting against any attempt budget). -/
def allNondecisive (responses : Nat → PollResponse) (n : Nat) : Prop :=
  ∀ m, n ≤ m → m < 30 → nondecisive (responses m) = true

/-- The generate response as `transcribe_audio` reads it: HTTP status, the
`candidates` array (each candidate abbreviated to the text of its first
part), and the `promptFeedback.blockReason` field, which the code never
reads. `none` for `candidates` means the key is absent. -/
structure GenResponse where
  status : Nat
  candidates : Option (List String)
  blockReason : Option String
deriving DecidableEq

/-- Outcome of `transcribe_audio`: the returned text or the raised
exception's message. -/
inductive TranscribeResult
  | ok (text : String)
  | error (msg : String)
deriving DecidableEq

/-- `HTTPGeminiClient.transcribe_audio` on a given generate response:
status 200 with a non-empty `candidates` list returns the first candidate's
text (whatever it is); status 200 otherwise raises `"转录返回空结果"`;
a non-200 status raises a `"转录失败: ..."` message. -/
def transcribe_audio (resp : GenResponse) : TranscribeResult :=
  if resp.status = 200 then
    match resp.candidates with
    | some (t :: _) => .ok t
    | _ => .error "转录返回空结果"
  else .error ("转录失败: " ++ toString resp.status)

/-- The per-job result dictionary built by `process_single_file_parallel`
and by the collection loop of `process_folder_parallel`. -/
structure PResult where
  file_path : String
  success : Bool
  error : Option String
  thread_id : Nat
  timestamp : String
deriving DecidableEq

/-- What one worker run produces from `process_single_file_parallel`'s point
of view: either `process_single_file` returned a `(success, error)` pair
(it catches every exception of the three workflow steps itself), or an
exception escaped into the wrapper's own `try`. -/
inductive WorkerEvent
  | completes (success : Bool) (err : Option String)
  | raises (msg : String)
deriving DecidableEq

/-- `process_single_file_parallel`: builds one result dictionary from the
worker event; a raised exception is caught and converted into a failed
result carrying the message. -/
def process_single_file_parallel (fp : String) (tid : Nat) (ts : String) :
    WorkerEvent → PResult
  | .completes s e =>
    { file_path := fp, success := s, error := e, thread_id := tid, timestamp := ts }
  | .raises m =>
    { file_path := fp, success := false, error := some m, thread_id := tid,
      timestamp := ts }

/-- A submitted task: (file path, thread id, timestamp used on failure). -/
def TaskInfo := String × Nat × String

/-- One iteration of `process_folder_parallel`'s collection loop:
`future.result()` either yields the worker's result dictionary or raises,
in which case the scheduler builds a failed result from the task tuple. -/
def collect_result (task : String × Nat × String) :
    Except String PResult → PResult
  | .ok r => r
  | .error m =>
    { file_path := task.1, success := false, error := some m,
      thread_id := task.2.1, timestamp := task.2.2 }

/-- The whole collection loop of `process_folder_parallel`: one result is
appended per submitted future (completion order abstracted to list order). -/
def process_folder_collect
    (jobs : List ((String × Nat × String) × Except String PResult)) :
    List PResult :=
  jobs.map (fun j => collect_result j.1 j.2)

/-- The names defined at module level by `key_manager.py`: its imports, the
prefix constant, the `ApiKeyManager` class and the `api_manager` singleton. -/
def keyManagerModuleNames : List String :=
  ["os", "queue", "sys", "requests", "threading", "time", "load_dotenv",
   "contextlib", "API_KEY_PREFIX", "ApiKeyManager", "api_manager"]

/-- Resolution of `from key_manager import NAME`: succeeds only when the
module defines `NAME`. -/
inductive NameLookup
  | found
  | missing (name : String)
deriving DecidableEq

/-- Python's `from M import n` name resolution against M's defined names. -/
def resolveName (names : List String) (n : String) : NameLookup :=
  if names.contains n then .found else .missing n

/-- An operation of a module guarded by its import line: when the import
fails, the `ImportError` is raised at module load and the operation never
runs; otherwise the operation runs. -/
def moduleLoadThen {α : Type} (l : NameLookup) (op : Unit → α) :
    Except String α :=
  match l with
  | .found => .ok (op ())
  | .missing n => .error ("ImportError: cannot import name " ++ n)

/-- The outcome of scanning the input folder in `process_folder_sequential`
and `process_folder_parallel`: one of the three early-return paths, or a
non-empty list of audio files, each job recorded by its success flag. -/
inductive FolderScan
  | notExists
  | notDir
  | noAudio
  | files (jobs : List Bool)
deriving DecidableEq

/-- The job success flags of a scan (empty on the early-return paths). -/
def jobsOf : FolderScan → List Bool
  | .files js => js
  | _ => []

/-- `process_folder_sequential`: early paths return `False`; otherwise every
file is processed and the return value is `successful_count > 0`. -/
def process_folder_sequential (scan : FolderScan) : Bool :=
  match scan with
  | .notExists => false
  | .notDir => false
  | .noAudio => false
  | .files jobs => decide (0 < jobs.countP (fun b => b))

/-- `process_folder_parallel`: same scan and same final
`successful_count > 0` return value as the sequential path. -/
def process_folder_parallel (scan : FolderScan) : Bool :=
  match scan with
  | .notExists => false
  | .notDir => false
  | .noAudio => false
  | .files jobs => decide (0 < jobs.countP (fun b => b))

/-- `process_folder`: dispatches on the `parallel` flag. -/
def process_folder (parallel : Bool) (scan : FolderScan) : Bool :=
  if parallel then process_folder_parallel scan
  else process_folder_sequential scan

/- ===== Theorems ===== -/

/-- C8: if zero credentials are configured (no environment variable whose
name starts with `API_KEY_`), `ApiKeyManager` construction exits fatally
with code 1, which happens at module import — before any job is attempted. -/
theorem zero_keys_fatal_exit (env : List (String × String)) (jobs : List String)
    (h : ∀ p ∈ env, strStartsWith p.1 "API_KEY_" = false) :
    initApiKeyManager env = .fatalExit 1 ∧ runBatchStartup env jobs = .error 1 := by
  have hf : env.filter (fun p => strStartsWith p.1 "API_KEY_") = [] := by
    rw [List.filter_eq_nil_iff]
    intro p hp
    simp [h p hp]
  constructor
  · simp [initApiKeyManager, load_keys_from_env, hf]
  · simp [runBatchStartup, initApiKeyManager, load_keys_from_env, hf]

/-- Witness for C8 at a concrete environment with no `API_KEY_` variable. -/
theorem zero_keys_fatal_exit_witness :
    (∀ p ∈ [("PATH", "/usr/bin"), ("GEMINI_MODEL_NAME", "gemini-2.0-flash")],
      strStartsWith (Prod.fst p) "API_KEY_" = false) ∧
    initApiKeyManager [("PATH", "/usr/bin"), ("GEMINI_MODEL_NAME", "gemini-2.0-flash")] =
      .fatalExit 1 ∧
    runBatchStartup [("PATH", "/usr/bin"), ("GEMINI_MODEL_NAME", "gemini-2.0-flash")]
      ["a.mp3"] = .error 1 :=
  ⟨by decide,
   zero_keys_fatal_exit [("PATH", "/usr/bin"), ("GEMINI_MODEL_NAME", "gemini-2.0-flash")]
     ["a.mp3"] (by decide)⟩

/-- C9: `批量处理.py` line 18 runs `from key_manager import api_key_queue`,
but `key_manager.py` defines no module-level name `api_key_queue` (only its
imports, `API_KEY_PREFIX`, the `ApiKeyManager` class and the `api_manager`
singleton); hence the name resolution fails and every operation of the
module fails at load, before any network call runs. -/
theorem import_api_key_queue_fails :
    resolveName keyManagerModuleNames "api_key_queue" = .missing "api_key_queue" ∧
    ∀ (α : Type) (op : Unit → α),
      moduleLoadThen (resolveName keyManagerModuleNames "api_key_queue") op =
        .error "ImportError: cannot import name api_key_queue" := by
  constructor
  · rfl
  · intro α op
    rfl

/-- C10: `process_folder` (in both sequential and parallel mode) returns
`True` exactly when at least one job succeeded; in particular a run with
one success and one failure still returns `True`. -/
theorem process_folder_true_iff_some_success (parallel : Bool) (scan : FolderScan) :
    (process_folder parallel scan = true ↔ ∃ b ∈ jobsOf scan, b = true) ∧
    process_folder parallel (FolderScan.files [true, false]) = true := by
  constructor
  · cases scan <;> cases parallel <;>
      simp [process_folder, process_folder_parallel, process_folder_sequential,
            jobsOf, List.countP_pos_iff]
  · cases parallel <;> decide

/-- C7: the parallel scheduler collects exactly one result per submitted
job; a worker whose `process_single_file_parallel` raises is converted into
a failed result by that wrapper, a future that raises is converted into a
failed result by the collection loop, and the result of one batch of jobs
is unaffected by any other batch appended to it. -/
theorem one_result_per_job :
    (∀ jobs, (process_folder_collect jobs).length = jobs.length) ∧
    (∀ jobs1 jobs2, process_folder_collect (jobs1 ++ jobs2) =
        process_folder_collect jobs1 ++ process_folder_collect jobs2) ∧
    (∀ fp tid ts m, process_single_file_parallel fp tid ts (.raises m) =
        { file_path := fp, success := false, error := some m, thread_id := tid,
          timestamp := ts }) ∧
    (∀ task m, collect_result task (.error m) =
        { file_path := task.1, success := false, error := some m,
          thread_id := task.2.1, timestamp := task.2.2 }) := by
  refine ⟨?_, ?_, ?_, ?_⟩ <;> intros <;>
    simp [process_folder_collect, process_single_file_parallel, collect_result]

/-- C1 counterexample: with the key queue holding three keys, the job's
upload step uses key "A" while its generate step uses key "C" — the
credential is acquired per step, not once per job, so the upload-time and
generate-time credentials differ. -/
theorem upload_generate_key_swap_counterexample :
    jobStepKeys ["A", "B", "C"] = some (("A", "B", "C"), ["A", "B", "C"]) ∧
    ("A" : String) ≠ "C" :=
  ⟨rfl, by decide⟩

/-- C1 amended: each of upload, poll and generate separately takes the
front key of the FIFO queue and puts it back at the back when the step
ends; the three steps of one job therefore use the first three queued keys
in order (equal only if those entries coincide), and the queue ends as a
rotation of the original — keys are conserved but not held across steps. -/
theorem per_step_key_rotation (a b c : String) (rest : List String) :
    jobStepKeys (a :: b :: c :: rest) = some ((a, b, c), rest ++ [a, b, c]) := by
  simp [jobStepKeys, stepKeyUse]

/-- C5 counterexample: a generate response whose single candidate's text is
empty is returned as a success with empty text (not an error), and the
no-candidates case yields the same fixed error message
whether or not a safety-block reason is present — the detail does not
distinguish nor mention the block reason. -/
theorem transcribe_audio_counterexample :
    transcribe_audio { status := 200, candidates := some [""],
                       blockReason := some "SAFETY" } = .ok "" ∧
    transcribe_audio { status := 200, candidates := none, blockReason := none } =
      .error "转录返回空结果" ∧
    transcribe_audio { status := 200, candidates := some [],
                       blockReason := some "SAFETY" } = .error "转录返回空结果" :=
  ⟨rfl, rfl, rfl⟩

/-- C5 amended: on a 200 response, `transcribe_audio` fails — always with
the one fixed message `"转录返回空结果"` — exactly when the candidates
array is missing or empty; otherwise it returns the first candidate's text
even when that text is empty; and the result never depends on the
safety-block field, which the code does not read. -/
theorem transcribe_audio_amended (resp : GenResponse) (h : resp.status = 200) :
    (∀ t ts, resp.candidates = some (t :: ts) → transcribe_audio resp = .ok t) ∧
    ((resp.candidates = none ∨ resp.candidates = some []) →
      transcribe_audio resp = .error "转录返回空结果") ∧
    (∀ b, transcribe_audio { resp with blockReason := b } = transcribe_audio resp) := by
  refine ⟨?_, ?_, ?_⟩
  · intro t ts hc
    simp [transcribe_audio, h, hc]
  · rintro (hc | hc) <;> simp [transcribe_audio, h, hc]
  · intro b
    simp [transcribe_audio]

/-- Witness for C5's amended theorem on a concrete 200 response. -/
theorem transcribe_audio_amended_witness :
    (({ status := 200, candidates := some ["hello"], blockReason := none } :
        GenResponse).status = 200) ∧
    transcribe_audio { status := 200, candidates := some ["hello"],
                       blockReason := none } = .ok "hello" :=
  ⟨rfl, (transcribe_audio_amended
          { status := 200, candidates := some ["hello"], blockReason := none }
          rfl).1 "hello" [] rfl⟩

/-- C6 counterexample: the `finally` block guards the return with Python
truthiness (`if api_key:`), so a session that acquires the empty-string
credential removes one key from the pool and returns zero — the pool
shrinks, against the exactly-once-release claim. -/
theorem empty_key_leak_counterexample :
    get_key_for_session [""] BodyOutcome.ok = ([], 1, 0) ∧ (1 : Nat) ≠ 0 :=
  ⟨rfl, by decide⟩

/-- C6 amended: for every session that acquires a non-empty credential, the
credential is returned to the queue exactly once on every exit path
(normal return, error result, or exception), conserving the pool; when
acquisition times out on an empty pool, nothing is removed or returned.
Only an acquired empty-string credential (Python-falsy) is never returned. -/
theorem get_key_for_session_exactly_once (k : String) (rest : List String)
    (body : BodyOutcome) (h : k ≠ "") :
    get_key_for_session (k :: rest) body = (rest ++ [k], 1, 1) ∧
    get_key_for_session [] body = ([], 0, 0) := by
  cases body <;> simp [get_key_for_session, h]

/-- Witness for C6's amended theorem with a concrete non-empty key and an
exception-raising session body. -/
theorem get_key_for_session_exactly_once_witness :
    ("K1" : String) ≠ "" ∧
    (get_key_for_session ["K1", "K2"] BodyOutcome.exc = (["K2", "K1"], 1, 1) ∧
     get_key_for_session [] BodyOutcome.exc = ([], 0, 0)) :=
  ⟨by decide, get_key_for_session_exactly_once "K1" ["K2"] BodyOutcome.exc (by decide)⟩

/-- C2, evaluated at the failing input: a server answering HTTP 400 on
every attempt. The claim (and the code's own comment at the 400/403/404
branch) says exactly one call and an immediate permanent failure; the code
instead makes all 3 calls with sleeps 2s, 4s, 6s and ends in the
retries-exhausted raise wrapping the `HTTPError` — because the
`raise_for_status` call raises inside the `try` and `HTTPError` is a
subclass of the caught `RequestException`. -/
theorem fatal_status_retried_not_immediate :
    execute_request (fun _ => .response 400 "Bad Request") =
      { numCalls := 3, sleeps := [2, 4, 6],
        outcome := .retriesExhausted (some (.httpError 400 "Bad Request")) } ∧
    fatalStatus 400 = true :=
  ⟨rfl, rfl⟩

/-- One transient attempt of the loop: the attempt records its error,
sleeps `2 * (attempt + 1)` seconds and hands over to the next attempt. -/
theorem execGo_transient_step (server : Nat → AttemptOutcome)
    (fuel attempt : Nat) (last : Option ReqError)
    (h : isTransientOutcome (server attempt) = true) :
    execGo server (fuel + 1) attempt last =
      { numCalls :=
          (execGo server fuel (attempt + 1) (some (recordedError (server attempt)))).numCalls + 1,
        sleeps := 2 * (attempt + 1) ::
          (execGo server fuel (attempt + 1) (some (recordedError (server attempt)))).sleeps,
        outcome :=
          (execGo server fuel (attempt + 1) (some (recordedError (server attempt)))).outcome } := by
  cases hs : server attempt with
  | response s body =>
    have ht : transientStatus s = true := by
      simpa [isTransientOutcome, hs] using h
    have hok : responseOk s = false := by
      have hcases := ht
      simp only [transientStatus, Bool.or_eq_true, decide_eq_true_eq] at hcases
      simp only [responseOk, decide_eq_false_iff_not, not_lt]
      omega
    simp [execGo, hs, hok, ht, recordedError]
  | netError m =>
    simp [execGo, hs, recordedError]

/-- C3: when every attempt receives a transient outcome (status 429, 500 or
503, or a network-level failure), `execute_request` makes exactly 3 HTTP
calls, sleeps 2, 4, 6 seconds after the first, second and third failed
attempt (a non-decreasing backoff, `2 * attemptNumber`), and ends with the
retries-exhausted raise wrapping the last attempt's recorded error. -/
theorem execute_request_transient_exhausts (server : Nat → AttemptOutcome)
    (h : ∀ k, k < 3 → isTransientOutcome (server k) = true) :
    execute_request server =
      { numCalls := 3, sleeps := [2 * 1, 2 * 2, 2 * 3],
        outcome := .retriesExhausted (some (recordedError (server 2))) } ∧
    (execute_request server).sleeps.Pairwise (· ≤ ·) := by
  have h0 := execGo_transient_step server 2 0 none (h 0 (by omega))
  have h1 := execGo_transient_step server 1 1
    (some (recordedError (server 0))) (h 1 (by omega))
  have h2 := execGo_transient_step server 0 2
    (some (recordedError (server 1))) (h 2 (by omega))
  have hmain : execute_request server =
      { numCalls := 3, sleeps := [2 * 1, 2 * 2, 2 * 3],
        outcome := .retriesExhausted (some (recordedError (server 2))) } := by
    show execGo server max_attempts 0 none = _
    rw [show max_attempts = 2 + 1 from rfl, h0, h1, h2]
    simp [execGo]
  refine ⟨hmain, ?_⟩
  rw [hmain]
  show List.Pairwise (· ≤ ·) [2 * 1, 2 * 2, 2 * 3]
  decide

/-- Witness for C3: a server that is rate-limited (429) on every attempt. -/
theorem execute_request_transient_exhausts_witness :
    (∀ k, k < 3 →
      isTransientOutcome ((fun _ => AttemptOutcome.response 429 "rate limited") k) = true) ∧
    execute_request (fun _ => AttemptOutcome.response 429 "rate limited") =
      { numCalls := 3, sleeps := [2 * 1, 2 * 2, 2 * 3],
        outcome := .retriesExhausted (some (.transient 429 "rate limited")) } :=
  ⟨fun _ _ => rfl,
   (execute_request_transient_exhausts
     (fun _ => AttemptOutcome.response 429 "rate limited") (fun _ _ => rfl)).1⟩

/-- Once the elapsed time reaches the 300s ceiling the poll loop exits and
the timeout exception is raised. -/
theorem waitGo_timeout_eq (responses : Nat → PollResponse) (n elapsed : Nat)
    (h : ¬ elapsed < 300) : waitGo responses n elapsed = .timeout := by
  unfold waitGo
  simp [h]

/-- Inside the ceiling, an `ACTIVE` state returns success at once. -/
theorem waitGo_active_eq (responses : Nat → PollResponse) (n elapsed : Nat)
    (h : elapsed < 300) (hr : responses n = .ok "ACTIVE") :
    waitGo responses n elapsed = .success := by
  unfold waitGo
  simp [h, hr]

/-- Inside the ceiling, a `FAILED` state raises the processing-failed
exception at once. -/
theorem waitGo_failed_eq (responses : Nat → PollResponse) (n elapsed : Nat)
    (h : elapsed < 300) (hr : responses n = .ok "FAILED") :
    waitGo responses n elapsed = .processingFailed := by
  unfold waitGo
  simp [h, hr]

/-- Inside the ceiling, a nondecisive status check — a non-200 response or
a non-terminal state — sleeps 10s and re-enters the loop. -/
theorem waitGo_step_eq (responses : Nat → PollResponse) (n elapsed : Nat)
    (h : elapsed < 300) (hnd : nondecisive (responses n) = true) :
    waitGo responses n elapsed = waitGo responses (n + 1) (elapsed + 10) := by
  conv_lhs => unfold waitGo
  cases hr : responses n with
  | ok st =>
    rw [hr] at hnd
    simp only [nondecisive, Bool.and_eq_true, Bool.not_eq_true', decide_eq_false_iff_not] at hnd
    simp [h, hr, hnd.1, hnd.2]
  | err s =>
    simp [h, hr]

/-- A nondecisive poll at `n` neither creates nor destroys a later first
decisive poll delivering `target`. -/
theorem exists_firstDecisive_shift (responses : Nat → PollResponse) (n : Nat)
    (target : PollResponse) (hnd : nondecisive (responses n) = true)
    (hne : responses n ≠ target) :
    (∃ m, firstDecisive responses (n + 1) m target) ↔
      (∃ m, firstDecisive responses n m target) := by
  constructor
  · rintro ⟨m, hm1, hm2, hm3, hm4⟩
    refine ⟨m, by omega, hm2, hm3, fun j hj1 hj2 => ?_⟩
    rcases Nat.eq_or_lt_of_le hj1 with rfl | hj
    · exact hnd
    · exact hm4 j (by omega) hj2
  · rintro ⟨m, hm1, hm2, hm3, hm4⟩
    have hmn : n ≠ m := by
      rintro rfl
      exact hne hm3
    exact ⟨m, by omega, hm2, hm3, fun j hj1 hj2 => hm4 j (by omega) hj2⟩

/-- A nondecisive poll at `n` lets the all-nondecisive property shift. -/
theorem allNondecisive_shift (responses : Nat → PollResponse) (n : Nat)
    (hnd : nondecisive (responses n) = true) :
    allNondecisive responses (n + 1) ↔ allNondecisive responses n := by
  constructor
  · intro hall m hm1 hm2
    rcases Nat.eq_or_lt_of_le hm1 with rfl | h
    · exact hnd
    · exact hall m (by omega) hm2
  · intro hall m hm1 hm2
    exact hall m (by omega) hm2

/-- A decisive poll at `n` delivering something other than `target` rules
out any first decisive poll delivering `target`. -/
theorem not_exists_firstDecisive (responses : Nat → PollResponse) (n : Nat)
    (target : PollResponse) (hd : nondecisive (responses n) = false)
    (hne : responses n ≠ target) :
    ¬ ∃ m, firstDecisive responses n m target := by
  rintro ⟨m, hm1, hm2, hm3, hm4⟩
  rcases Nat.eq_or_lt_of_le hm1 with rfl | h
  · exact hne hm3
  · have := hm4 n (le_refl n) h
    rw [hd] at this
    cases this

/-- A decisive poll inside the ceiling rules out the all-nondecisive
property. -/
theorem not_allNondecisive (responses : Nat → PollResponse) (n : Nat)
    (hd : nondecisive (responses n) = false) (hn : n < 30) :
    ¬ allNondecisive responses n := by
  intro hall
  have := hall n (le_refl n) hn
  rw [hd] at this
  cases this

/-- Characterization of the poll loop from a start index at or past the
ceiling: the loop exits immediately with the timeout. -/
theorem waitGo_char_ge30 (responses : Nat → PollResponse) (n : Nat)
    (hn : 30 ≤ n) :
    (waitGo responses n (10 * n) = .success ↔
       ∃ m, firstDecisive responses n m (.ok "ACTIVE")) ∧
    (waitGo responses n (10 * n) = .processingFailed ↔
       ∃ m, firstDecisive responses n m (.ok "FAILED")) ∧
    (waitGo responses n (10 * n) = .timeout ↔ allNondecisive responses n) := by
  have h30 : ¬ 10 * n < 300 := by omega
  rw [waitGo_timeout_eq responses n _ h30]
  refine ⟨?_, ?_, ?_⟩
  · constructor
    · intro hc
      exact absurd hc (by decide)
    · rintro ⟨m, hm1, hm2, -, -⟩
      exact absurd hm2 (by omega)
  · constructor
    · intro hc
      exact absurd hc (by decide)
    · rintro ⟨m, hm1, hm2, -, -⟩
      exact absurd hm2 (by omega)
  · constructor
    · intro _ m hm1 hm2
      exact absurd hm2 (by omega)
    · intro _
      rfl

/-- Characterization of the poll loop of `wait_for_file_processing` from
poll index `n` (at its scheduled elapsed time `10 * n`), by induction on
the number of polls still allowed by the 300s ceiling. -/
theorem waitGo_char (responses : Nat → PollResponse) :
    ∀ fuel n, 30 ≤ n + fuel →
      (waitGo responses n (10 * n) = .success ↔
         ∃ m, firstDecisive responses n m (.ok "ACTIVE")) ∧
      (waitGo responses n (10 * n) = .processingFailed ↔
         ∃ m, firstDecisive responses n m (.ok "FAILED")) ∧
      (waitGo responses n (10 * n) = .timeout ↔ allNondecisive responses n) := by
  intro fuel
  induction fuel with
  | zero =>
    intro n hn
    exact waitGo_char_ge30 responses n (by omega)
  | succ fuel ih =>
    intro n hn
    by_cases hlt : n < 30
    · have h300 : 10 * n < 300 := by omega
      have hnext : 10 * n + 10 = 10 * (n + 1) := by ring
      cases hcase : responses n with
      | ok st =>
        by_cases hA : st = "ACTIVE"
        · subst hA
          rw [waitGo_active_eq responses n _ h300 hcase]
          have hd : nondecisive (responses n) = false := by
            simp [nondecisive, hcase]
          refine ⟨?_, ?_, ?_⟩
          · constructor
            · intro _
              exact ⟨n, le_refl n, hlt, hcase, fun j hj1 hj2 => absurd hj2 (by omega)⟩
            · intro _
              rfl
          · constructor
            · intro hc
              exact absurd hc (by decide)
            · intro hex
              refine absurd hex (not_exists_firstDecisive responses n _ hd ?_)
              rw [hcase]
              simp
          · constructor
            · intro hc
              exact absurd hc (by decide)
            · intro hall
              exact absurd hall (not_allNondecisive responses n hd hlt)
        · by_cases hF : st = "FAILED"
          · subst hF
            rw [waitGo_failed_eq responses n _ h300 hcase]
            have hd : nondecisive (responses n) = false := by
              simp [nondecisive, hcase]
            refine ⟨?_, ?_, ?_⟩
            · constructor
              · intro hc
                exact absurd hc (by decide)
              · intro hex
                refine absurd hex (not_exists_firstDecisive responses n _ hd ?_)
                rw [hcase]
                simp
            · constructor
              · intro _
                exact ⟨n, le_refl n, hlt, hcase, fun j hj1 hj2 => absurd hj2 (by omega)⟩
              · intro _
                rfl
            · constructor
              · intro hc
                exact absurd hc (by decide)
              · intro hall
                exact absurd hall (not_allNondecisive responses n hd hlt)
          · have hnd : nondecisive (responses n) = true := by
              simp [nondecisive, hcase, hA, hF]
            rw [waitGo_step_eq responses n _ h300 hnd, hnext]
            obtain ⟨ihS, ihF, ihT⟩ := ih (n + 1) (by omega)
            have hneA : responses n ≠ .ok "ACTIVE" := by
              rw [hcase]
              simpa using hA
            have hneF : responses n ≠ .ok "FAILED" := by
              rw [hcase]
              simpa using hF
            exact ⟨ihS.trans (exists_firstDecisive_shift responses n _ hnd hneA),
                   ihF.trans (exists_firstDecisive_shift responses n _ hnd hneF),
                   ihT.trans (allNondecisive_shift responses n hnd)⟩
      | err s =>
        have hnd : nondecisive (responses n) = true := by
          simp [nondecisive, hcase]
        rw [waitGo_step_eq responses n _ h300 hnd, hnext]
        obtain ⟨ihS, ihF, ihT⟩ := ih (n + 1) (by omega)
        have hneA : responses n ≠ .ok "ACTIVE" := by
          simp [hcase]
        have hneF : responses n ≠ .ok "FAILED" := by
          simp [hcase]
        exact ⟨ihS.trans (exists_firstDecisive_shift responses n _ hnd hneA),
               ihF.trans (exists_firstDecisive_shift responses n _ hnd hneF),
               ihT.trans (allNondecisive_shift responses n hnd)⟩
    · exact waitGo_char_ge30 responses n (by omega)

/-- C4: `wait_for_file_processing` re-checks the asset's state at a fixed
10-second interval (poll `m` at elapsed time `10 * m`, so exactly the
polls `m < 30` start inside the 300s wall-clock ceiling): it returns
success exactly when some in-ceiling poll is the first decisive one and
reports `ACTIVE`, raises the remote-processing-failed error exactly when
the first decisive in-ceiling poll reports `FAILED`, and raises the
timeout error exactly when every in-ceiling poll is nondecisive — where a
nondecisive poll is a non-200 status-check response or a non-terminal
state, retried within the ceiling without counting against any attempt
budget. -/
theorem wait_for_file_processing_spec (responses : Nat → PollResponse) :
    (wait_for_file_processing responses = .success ↔
       ∃ m, firstDecisive responses 0 m (.ok "ACTIVE")) ∧
    (wait_for_file_processing responses = .processingFailed ↔
       ∃ m, firstDecisive responses 0 m (.ok "FAILED")) ∧
    (wait_for_file_processing responses = .timeout ↔ allNondecisive responses 0) := by
  have h := waitGo_char responses 30 0 (by omega)
  simpa [wait_for_file_processing] using h
